import Mathlib

/-!
Verification development for the fourth-turning-tracker dashboard core.

The definitions below are a shallow embedding of the JavaScript calculation
core of the repository:

* `src/dashboard/lib/utils/calculations.js` — indicator formula library,
  threshold zone evaluation, crisis stage assessment, trend calculators;
* `src/dashboard/lib/services/cipBasisService.js` — CIP basis proxy
  calculation and its mutable calibration state.

JavaScript numbers are modelled by `JSVal`: a JS value in a numeric context
is `undefined`, `null`, `NaN`, or a (finite) number, modelled as a rational.
JS arithmetic applies `ToNumber` coercion: `null` coerces to `0`,
`undefined` coerces to `NaN`, and any operation or comparison involving
`NaN` yields `NaN` (for arithmetic) or `false` (for comparisons).  Floating
point rounding is not modelled; all arithmetic in the source is plain
addition, subtraction, multiplication and division of decimal inputs, which
rationals represent exactly.
-/

namespace FT

/-- A JavaScript value appearing in a numeric context. -/
inductive JSVal where
  | undef
  | jsNull
  | nan
  | num (q : ℚ)
deriving DecidableEq

/-- JS `ToNumber` coercion, with `none` standing for `NaN`:
`null` coerces to `0`, `undefined` to `NaN`. -/
def toNumber : JSVal → Option ℚ
  | .undef => none
  | .jsNull => some 0
  | .nan => none
  | .num q => some q

/-- JS truthiness test (`!x` in the source): `undefined`, `null`, `NaN`
and `0` are falsy. -/
def falsy : JSVal → Bool
  | .undef => true
  | .jsNull => true
  | .nan => true
  | .num q => decide (q = 0)

/-- Lift a binary rational operation to JS semantics: if either operand
coerces to `NaN` the result is `NaN`. -/
def jsBin (f : ℚ → ℚ → ℚ) (a b : JSVal) : JSVal :=
  match toNumber a, toNumber b with
  | some x, some y => .num (f x y)
  | _, _ => .nan

def jsAdd : JSVal → JSVal → JSVal := jsBin (fun x y => x + y)

def jsSub : JSVal → JSVal → JSVal := jsBin (fun x y => x - y)

def jsMul : JSVal → JSVal → JSVal := jsBin (fun x y => x * y)

/-- JS division under the embedding.  Every division site in the embedded
source either guards the denominator against the falsy values (which
include `0` and `NaN`) or, in the CIP forward branch, is modelled over
plain rationals, so the JS `x / 0 = Infinity` case is never reached. -/
def jsDiv : JSVal → JSVal → JSVal := jsBin (fun x y => x / y)

/-- JS comparison `a > c` against a numeric literal `c`: `ToNumber` both
sides, any `NaN` makes the comparison false. -/
def jsGtQ (a : JSVal) (c : ℚ) : Bool :=
  match toNumber a with
  | some x => decide (c < x)
  | none => false

/-- JS comparison `a < c` against a numeric literal `c`. -/
def jsLtQ (a : JSVal) (c : ℚ) : Bool :=
  match toNumber a with
  | some x => decide (x < c)
  | none => false

/-- JS comparison `a >= c` against a numeric literal `c`. -/
def jsGeQ (a : JSVal) (c : ℚ) : Bool :=
  match toNumber a with
  | some x => decide (c ≤ x)
  | none => false

/-!
## Indicator Formula Library (`calculations.js`)
-/

/-- `calculateJapaneseHedgingSpread(us10y, jgb10y, fxHedgeCost)`:
`(us10y - jgb10y - fxHedgeCost) * 100`, no argument guards. -/
def calculateJapaneseHedgingSpread (us10y jgb10y fxHedgeCost : JSVal) : JSVal :=
  jsMul (jsSub (jsSub us10y jgb10y) fxHedgeCost) (.num 100)

/-- `estimateFxHedgeCost(usShortRate, jpShortRate, basisAdjustment)`:
`(usShortRate - jpShortRate) + basisAdjustment`. -/
def estimateFxHedgeCost (usShortRate jpShortRate basisAdjustment : JSVal) : JSVal :=
  jsAdd (jsSub usShortRate jpShortRate) basisAdjustment

/-- `calculateAuctionTail(auctionHighYield, whenIssuedYield)`:
`(auctionHighYield - whenIssuedYield) * 100`, no argument guards. -/
def calculateAuctionTail (auctionHighYield whenIssuedYield : JSVal) : JSVal :=
  jsMul (jsSub auctionHighYield whenIssuedYield) (.num 100)

/-- One auction record passed to `calculateAverageAuctionTail`. -/
structure Auction where
  highYield : JSVal
  whenIssuedYield : JSVal
deriving DecidableEq

/-- `calculateAverageAuctionTail(auctions)`: `null` for a missing or empty
array, otherwise `reduce`-sum of all per-auction tails divided by the
length.  Every auction is mapped through `calculateAuctionTail`; there is
no filtering of auctions with missing yields. -/
def calculateAverageAuctionTail (auctions : Option (List Auction)) : JSVal :=
  match auctions with
  | none => .jsNull
  | some l =>
    if l.length = 0 then .jsNull
    else
      let tails := l.map (fun a => calculateAuctionTail a.highYield a.whenIssuedYield)
      jsDiv (tails.foldl jsAdd (.num 0)) (.num l.length)

/-- `calculateGoldTreasuryRatio(goldPrice, tltPrice)`: `null` when
`!tltPrice || tltPrice === 0`, else `goldPrice / tltPrice`. -/
def calculateGoldTreasuryRatio (goldPrice tltPrice : JSVal) : JSVal :=
  if falsy tltPrice then .jsNull else jsDiv goldPrice tltPrice

/-- `calculateRatioRateOfChange(currentRatio, previousRatio)`: `null` when
`!previousRatio || previousRatio === 0`, else
`(currentRatio - previousRatio) / previousRatio`. -/
def calculateRatioRateOfChange (currentRatio previousRatio : JSVal) : JSVal :=
  if falsy previousRatio then .jsNull
  else jsDiv (jsSub currentRatio previousRatio) previousRatio

/-- `calculateInterestExpenseRatio(ttmInterestExpense, ttmReceipts)`:
`null` when `!ttmReceipts || ttmReceipts === 0`, else the quotient. -/
def calculateInterestExpenseRatio (ttmInterestExpense ttmReceipts : JSVal) : JSVal :=
  if falsy ttmReceipts then .jsNull else jsDiv ttmInterestExpense ttmReceipts

/-!
## Threshold zone evaluation (`evaluateThreshold` and helpers)
-/

/-- One threshold band from `thresholds.json`: optional `min` and `max`
bounds (absent JSON keys are `undefined` in the source). -/
structure Band where
  min : Option ℚ
  max : Option ℚ
deriving DecidableEq

/-- A threshold configuration object: at most one band per zone name. -/
structure ThresholdConfig where
  critical : Option Band
  danger : Option Band
  warning : Option Band
  normal : Option Band
deriving DecidableEq

/-- The four configurable zone names, in the fixed priority order of the
`zones` array in `evaluateThreshold`. -/
inductive Zone where
  | critical
  | danger
  | warning
  | normal
deriving DecidableEq

/-- The `zones` iteration list `['critical', 'danger', 'warning', 'normal']`. -/
def zonePriority : List Zone := [.critical, .danger, .warning, .normal]

/-- Band lookup `thresholdConfig[zone]`. -/
def bandFor (cfg : ThresholdConfig) : Zone → Option Band
  | .critical => cfg.critical
  | .danger => cfg.danger
  | .warning => cfg.warning
  | .normal => cfg.normal

/-- `zone.toUpperCase()` for the four configurable zone names. -/
def zoneUpper : Zone → String
  | .critical => "CRITICAL"
  | .danger => "DANGER"
  | .warning => "WARNING"
  | .normal => "NORMAL"

/-- `getZoneColor` lookup table (the `unknown` entry is used directly in
the `UNKNOWN` early return of `evaluateThreshold`). -/
def getZoneColor : Zone → String
  | .normal => "#10b981"
  | .warning => "#f59e0b"
  | .danger => "#ef4444"
  | .critical => "#7c2d12"

/-- `getZoneDescription` lookup table. -/
def getZoneDescription : Zone → String
  | .normal => "Within normal range"
  | .warning => "Elevated risk - monitor closely"
  | .danger => "High risk - significant concern"
  | .critical => "Critical - immediate attention required"

/-- The result object of `evaluateThreshold`. -/
structure ZoneResult where
  zone : String
  color : String
  description : String
deriving DecidableEq

/-- The body of the zone membership test in `evaluateThreshold`:
`hasMin`/`hasMax` dispatch with JS comparisons `value >= min` and
`value < max`; `inZone` stays `false` when neither bound is defined. -/
def inZone (value : JSVal) (config : Band) : Bool :=
  match config.min, config.max with
  | some mn, some mx => jsGeQ value mn && jsLtQ value mx
  | some mn, none => jsGeQ value mn
  | none, some mx => jsLtQ value mx
  | none, none => false

/-- `evaluateThreshold(value, thresholdConfig)`: `UNKNOWN` short-circuit
for `null`/`undefined`, then first matching zone in priority order, else
the `NORMAL` default. -/
def evaluateThreshold (value : JSVal) (cfg : ThresholdConfig) : ZoneResult :=
  if value = .jsNull ∨ value = .undef then
    ⟨"UNKNOWN", "#6b7280", "Data unavailable"⟩
  else
    match zonePriority.find? (fun z =>
        match bandFor cfg z with
        | none => false
        | some b => inZone value b) with
    | some z => ⟨zoneUpper z, getZoneColor z, getZoneDescription z⟩
    | none => ⟨"NORMAL", "#10b981", "Within normal range"⟩

/-!
## Stage assessment (`assessCurrentStage` and helpers)
-/

/-- The indicator snapshot destructured at the top of
`assessCurrentStage`; any field may be `null`/`undefined`. -/
structure Indicators where
  hedgingSpread : JSVal
  basisSwap : JSVal
  auctionTail : JSVal
  goldTreasuryRoC : JSVal
  interestRatio : JSVal
  vix : JSVal
  hySpread : JSVal
  dollarChange : JSVal
  fedBalanceSheetChange : JSVal
  inflationBreakeven : JSVal
  goldChange : JSVal
  foreignHoldingsChange : JSVal
  cpiAnnualized : JSVal
deriving DecidableEq

/-- The `stage1Triggers` array built by `assessCurrentStage`. -/
def stage1Triggers (i : Indicators) : List String :=
  (if jsGtQ i.vix 40 then ["VIX > 40"] else []) ++
  (if jsGtQ i.hySpread 700 then ["HY Spread > 700bps"] else []) ++
  (if jsGtQ i.auctionTail 4 then ["Auction tail > 4bps"] else []) ++
  (if jsLtQ i.hedgingSpread (-50) then ["Japanese hedging spread < -50bps"] else []) ++
  (if jsLtQ i.dollarChange 0 && jsGtQ i.vix 25 then
      ["Dollar weakening during equity stress"] else [])

/-- The `stage2Triggers` array. -/
def stage2Triggers (i : Indicators) : List String :=
  (if jsGtQ i.fedBalanceSheetChange 2000 then ["Fed balance sheet expansion > $2T"] else []) ++
  (if jsGtQ i.inflationBreakeven 4 then ["Inflation breakevens > 4%"] else []) ++
  (if jsLtQ i.dollarChange (-15) then ["Dollar down > 15%"] else []) ++
  (if jsGtQ i.goldChange 30 then ["Gold up > 30%"] else [])

/-- The `stage3Triggers` array. -/
def stage3Triggers (i : Indicators) : List String :=
  (if jsLtQ i.dollarChange (-20) then ["Sustained dollar weakness > 20%"] else []) ++
  (if jsGtQ i.goldChange 50 then ["Gold acceleration > 50%"] else []) ++
  (if jsLtQ i.foreignHoldingsChange (-10) then ["Foreign selling acceleration"] else [])

/-- The `stage4Triggers` array. -/
def stage4Triggers (i : Indicators) : List String :=
  if jsGtQ i.cpiAnnualized 10 then ["CPI > 10% annualized"] else []

/-- One entry pushed onto `triggeredStages`. -/
structure TriggeredStage where
  stage : ℕ
  triggers : List String
  confidence : ℕ
deriving DecidableEq

/-- The `triggeredStages` array: one entry per stage whose trigger count
reaches its firing threshold (3 of 5 for stage 1, 2 of 4 for stage 2,
2 of 3 for stage 3, 1 of 1 for stage 4), in ascending stage order, each
carrying its own trigger list and `Math.min`-capped confidence. -/
def triggeredStages (i : Indicators) : List TriggeredStage :=
  (if 3 ≤ (stage1Triggers i).length then
      [⟨1, stage1Triggers i, min 100 (50 + (stage1Triggers i).length * 10)⟩] else []) ++
  (if 2 ≤ (stage2Triggers i).length then
      [⟨2, stage2Triggers i, min 100 (50 + (stage2Triggers i).length * 15)⟩] else []) ++
  (if 2 ≤ (stage3Triggers i).length then
      [⟨3, stage3Triggers i, min 100 (50 + (stage3Triggers i).length * 15)⟩] else []) ++
  (if 1 ≤ (stage4Triggers i).length then
      [⟨4, stage4Triggers i, min 100 (40 + (stage4Triggers i).length * 30)⟩] else [])

/-- `getStageDescription` lookup table. -/
def getStageDescription (stage : ℕ) : String :=
  if stage = 0 then "Pre-Crisis"
  else if stage = 1 then "Stage 1 - Traditional Financial Crisis"
  else if stage = 2 then "Stage 2 - Intervention Phase"
  else if stage = 3 then "Stage 3 - Credibility Crisis"
  else if stage = 4 then "Stage 4 - Regime Transition"
  else "Unknown"

/-- `(v).toFixed(1)` for the nonnegative values that reach it in
`assessCurrentStage` (the ratio is positive whenever the concern fires). -/
def toFixed1 (v : ℚ) : String :=
  let n : ℤ := round (v * 10)
  toString (n / 10) ++ "." ++ toString (n % 10)

/-- The `preCrisisConcerns` array built when no stage fired.  The
`interestRatio` concern interpolates the ratio as a percentage; its
`getD 0` is only reached when `toNumber` is `some` (the guard holds). -/
def preCrisisConcerns (i : Indicators) : List String :=
  (if jsLtQ i.hedgingSpread 0 then ["Japanese hedging spread negative"] else []) ++
  (if jsGtQ i.auctionTail 2 then ["Auction tails trending higher"] else []) ++
  (if jsGtQ ( Indicators.interestRatio i) (18/100) then
      ["Interest expense ratio at " ++
        toFixed1 ((toNumber ( Indicators.interestRatio i)).getD 0 * 100) ++ "%"] else []) ++
  (if jsGtQ i.basisSwap (-15) then ["Cross-currency basis narrowing"] else []) ++
  (if jsGtQ i.goldTreasuryRoC (10/100) then ["Gold/Treasury ratio accelerating"] else [])

/-- The result object of `assessCurrentStage`. -/
structure StageAssessment where
  stage : ℕ
  stageName : String
  confidence : ℕ
  triggers : List String
  allTriggeredStages : List TriggeredStage
deriving DecidableEq

/-- `assessCurrentStage(indicators)`: if any stage fired, the
`reduce`-selected highest-numbered entry wins; otherwise the pre-crisis
assessment from `preCrisisConcerns`. -/
def assessCurrentStage (i : Indicators) : StageAssessment :=
  match triggeredStages i with
  | t :: rest =>
    let highestStage := rest.foldl (fun mx s => if mx.stage < s.stage then s else mx) t
    ⟨highestStage.stage, getStageDescription highestStage.stage,
      highestStage.confidence, highestStage.triggers, triggeredStages i⟩
  | [] =>
    let concerns := preCrisisConcerns i
    let riskLevel :=
      if 3 ≤ concerns.length then "Elevated Risk"
      else if 1 ≤ concerns.length then "Moderate Risk"
      else "Low Risk"
    ⟨0, "Pre-Crisis (" ++ riskLevel ++ ")", 50 + concerns.length * 8, concerns, []⟩

/-!
## Calendar dates and the trend calculators

Dates are modelled as `(year, month, day)` triples with JS `Date`
conventions: `month` is 0-based (0 = January) and `day` is 1-based.  For
valid dates (`month < 12`, `day ≤ 31`) the key
`(year * 12 + month) * 32 + day` is strictly monotone in the timestamp
order, so all date comparisons go through `dateKey`.
-/

/-- A calendar date in JS `Date` component convention. -/
structure CalDate where
  year : ℤ
  month : ℕ
  day : ℕ
deriving DecidableEq

/-- Linearization of a date used for all comparisons. -/
def dateKey (d : CalDate) : ℤ :=
  (d.year * 12 + d.month) * 32 + d.day

/-- Date comparison `new Date(a) <= new Date(b)`. -/
def dateLE (a b : CalDate) : Bool :=
  decide (dateKey a ≤ dateKey b)

/-- Gregorian leap year rule (as implemented by JS `Date`). -/
def isLeap (y : ℤ) : Bool :=
  decide (y % 4 = 0) && (decide (¬ y % 100 = 0) || decide (y % 400 = 0))

/-- Days in the (0-based) month `m` of year `y`. -/
def daysInMonth (y : ℤ) (m : ℕ) : ℕ :=
  if m = 1 then (if isLeap y then 29 else 28)
  else if m = 3 ∨ m = 5 ∨ m = 8 ∨ m = 10 then 30
  else 31

/-- JS `Date` field normalization after `setMonth`/`setFullYear`: a
day-of-month past the end of the month rolls into the next month.  Since
`day ≤ 31` and every month has at least 28 days, one step suffices. -/
def normalizeDay (y : ℤ) (m : ℕ) (d : ℕ) : CalDate :=
  let dim := daysInMonth y m
  if dim < d then
    if m = 11 then ⟨y + 1, 0, d - dim⟩ else ⟨y, m + 1, d - dim⟩
  else ⟨y, m, d⟩

/-- `date.setMonth(date.getMonth() - n)`: JS handles negative month
indices by borrowing from the year (floor division), then normalizes the
day-of-month against the target month's length. -/
def minusMonths (n : ℕ) (dt : CalDate) : CalDate :=
  let total : ℤ := dt.year * 12 + dt.month - n
  normalizeDay (total / 12) (total % 12).toNat dt.day

/-- `date.setFullYear(date.getFullYear() - 1)` with day normalization
(Feb 29 of a leap year lands on Mar 1 of the previous year). -/
def minusOneYear (dt : CalDate) : CalDate :=
  normalizeDay (dt.year - 1) dt.month dt.day

/-- One element of a time series passed to the change calculators. -/
structure TimePoint where
  date : CalDate
  value : JSVal
deriving DecidableEq

/-- Descending-by-date ordering used by the comparator
`(a, b) => new Date(b.date) - new Date(a.date)`. -/
def dateGE (a b : TimePoint) : Prop :=
  dateKey b.date ≤ dateKey a.date

instance : DecidableRel dateGE := fun a b => by
  unfold dateGE; infer_instance

instance : IsTotal TimePoint dateGE :=
  ⟨fun a b => le_total (dateKey b.date) (dateKey a.date)⟩

instance : IsTrans TimePoint dateGE :=
  ⟨fun _ _ _ hab hbc => le_trans hbc hab⟩

/-- `[...data].sort((a, b) => new Date(b.date) - new Date(a.date))`:
a stable descending sort by date (`Array.prototype.sort` is stable;
insertion sort realizes the same stable result). -/
def sortByDateDesc (data : List TimePoint) : List TimePoint :=
  data.insertionSort dateGE

/-- `calculate6MonthChange(data)`: `null` for a missing series or fewer
than 2 points; otherwise the newest point minus the first point (scanning
the descending-sorted series from the newest) dated on-or-before the
newest date minus 6 months, or `null` when no such point exists.  The
empty-sort branch is unreachable (the series has at least 2 points). -/
def calculate6MonthChange (data : Option (List TimePoint)) : JSVal :=
  match data with
  | none => .jsNull
  | some l =>
    if l.length < 2 then .jsNull
    else
      match sortByDateDesc l with
      | [] => .jsNull
      | cur :: rest =>
        let cutoff := minusMonths 6 cur.date
        match (cur :: rest).find? (fun d => dateLE d.date cutoff) with
        | none => .jsNull
        | some prev => jsSub cur.value prev.value

/-- `calculate12MonthChange(data)`: as `calculate6MonthChange` but with a
`setFullYear(year - 1)` cutoff. -/
def calculate12MonthChange (data : Option (List TimePoint)) : JSVal :=
  match data with
  | none => .jsNull
  | some l =>
    if l.length < 2 then .jsNull
    else
      match sortByDateDesc l with
      | [] => .jsNull
      | cur :: rest =>
        let cutoff := minusOneYear cur.date
        match (cur :: rest).find? (fun d => dateLE d.date cutoff) with
        | none => .jsNull
        | some prev => jsSub cur.value prev.value

/-!
## CIP basis proxy service (`cipBasisService.js`)
-/

/-- ASCII model of `String.prototype.toLowerCase` on one character. -/
def asciiLowerChar (c : Char) : Char :=
  if 65 ≤ c.toNat ∧ c.toNat ≤ 90 then Char.ofNat (c.toNat + 32) else c

/-- ASCII model of `String.prototype.toLowerCase`. -/
def asciiLower (s : String) : String :=
  ⟨s.data.map asciiLowerChar⟩

/-- One entry of `this.calibration`. -/
structure Calibration where
  baseOffset : ℚ
  rateSensitivity : ℚ
  structuralPremium : Option ℚ
deriving DecidableEq

/-- The two-key calibration table from the service constructor. -/
structure CalibMap where
  eur : Calibration
  jpy : Calibration
deriving DecidableEq

/-- The constructor values of `this.calibration`. -/
def initialCalibration : CalibMap :=
  ⟨⟨-15, 8, none⟩, ⟨-25, 12, some (-15)⟩⟩

/-- Own-property lookup on `this.calibration` for an already-lowercased
key: the entry for the two own keys, `none` otherwise.  (`calibTruthy`
below models the truthiness of the full prototype-chain lookup used by
the `updateCalibration` guard.) -/
def calibFor (c : CalibMap) (key : String) : Option Calibration :=
  if key = "eur" then some c.eur
  else if key = "jpy" then some c.jpy
  else none

/-- Decimal digits to a natural number (`parseInt` on a digit string). -/
def digitsToNat (cs : List Char) : ℕ :=
  cs.foldl (fun acc c => acc * 10 + (c.toNat - 48)) 0

/-- `getTenorDays(tenor)`: parse `/^(\d+)([YMD])$/i`, returning
`n * 365` for years, `n * 30` for months, `n` for days, and the default
`1825` when the string does not match. -/
def getTenorDays (tenor : String) : ℚ :=
  match tenor.data.dropLast, tenor.data.getLast? with
  | digits, some u =>
    if digits ≠ [] ∧ digits.all Char.isDigit ∧ asciiLowerChar u ∈ ['y', 'm', 'd'] then
      if asciiLowerChar u = 'y' then (digitsToNat digits : ℚ) * 365
      else if asciiLowerChar u = 'm' then (digitsToNat digits : ℚ) * 30
      else (digitsToNat digits : ℚ)
    else 1825
  | _, none => 1825

/-- `calculateCIPBasis(usdRate, foreignRate, spotRate, forwardPoints,
tenor, currency)` over a calibration table `calib`.  With forward points
and a spot rate, the annualized forward premium minus the rate
differential, converted to basis points; otherwise the calibrated
fallback with the JPY structural premium (guarded by JS truthiness, so a
zero premium is not added).  The `getD calib.eur` models the
`|| this.calibration.eur` fallback; it is exact for every currency whose
lowercasing is not an `Object.prototype` property name, and the theorems
below only instantiate the configured keys. -/
def calculateCIPBasis (calib : CalibMap) (usdRate foreignRate : ℚ)
    (spotRate forwardPoints : Option ℚ) (tenor currency : String) : ℚ :=
  let rateDiff := usdRate - foreignRate
  let cal := (calibFor calib (asciiLower currency)).getD calib.eur
  match forwardPoints, spotRate with
  | some fp, some spot =>
    let tenorDays := getTenorDays tenor
    let forwardPremium := fp / spot * (360 / tenorDays) * 100
    (forwardPremium - rateDiff) * 100
  | _, _ =>
    let basis := cal.baseOffset - rateDiff * cal.rateSensitivity
    if asciiLower currency = "jpy" then
      match cal.structuralPremium with
      | some sp => if sp = 0 then basis else basis + sp
      | none => basis
    else basis

/-- The parameters object of `updateCalibration`; `none` models an absent
or non-`number` field (`typeof params.x === 'number'` fails). -/
structure UpdateParams where
  baseOffset : Option ℚ
  rateSensitivity : Option ℚ
  structuralPremium : Option ℚ
deriving DecidableEq

/-- The return object of `updateCalibration`: a rejection, a success
echoing an own calibration entry, or a success for a key resolved on the
prototype chain (the returned `calibration` is then the inherited
`Object.prototype` member, which is not a calibration entry). -/
inductive UpdateResult where
  | rejected (error : String)
  | ok (currency : String) (calibration : Calibration)
  | okInherited (currency : String)
deriving DecidableEq

/-- Process state of the service touched by `updateCalibration`: the
calibration table and the set of live cache keys. -/
structure ServiceState where
  calibration : CalibMap
  cache : List String
deriving DecidableEq

/-- The field-by-field `typeof`-guarded assignment in
`updateCalibration` (`structuralPremium` only for `jpy`). -/
def applyParams (c : Calibration) (isJpy : Bool) (p : UpdateParams) : Calibration :=
  let c1 := match p.baseOffset with
    | some v => Calibration.mk v c.rateSensitivity c.structuralPremium
    | none => c
  let c2 := match p.rateSensitivity with
    | some v => Calibration.mk c1.baseOffset v c1.structuralPremium
    | none => c1
  match p.structuralPremium with
  | some v => if isJpy then Calibration.mk c2.baseOffset c2.rateSensitivity (some v) else c2
  | none => c2

/-- The property names every plain object inherits from
`Object.prototype`; their values (methods, and the prototype object
itself for `__proto__`) are all truthy. -/
def objectProtoProps : List String :=
  ["constructor", "__proto__", "hasOwnProperty", "isPrototypeOf",
   "propertyIsEnumerable", "toLocaleString", "toString", "valueOf",
   "__defineGetter__", "__defineSetter__", "__lookupGetter__", "__lookupSetter__"]

/-- The JS truthiness of `this.calibration[key]` for an already-lowercased
key: property lookup walks the prototype chain, so the test passes for
the two own keys and for every `Object.prototype` property name. -/
def calibTruthy (key : String) : Bool :=
  decide (key = "eur") || decide (key = "jpy") || decide (key ∈ objectProtoProps)

/-- `updateCalibration(currency, params)`: the guard
`if (!this.calibration[curr])` rejects only keys whose lookup is falsy —
prototype-chain hits such as `constructor` pass it.  For an own key the
selected entry is mutated and echoed back; for an inherited key the
`typeof`-guarded assignments land on the inherited `Object.prototype`
member, leaving the calibration table's own entries unchanged.  In every
non-rejected case the three dependent cache keys are deleted and
`success: true` is returned. -/
def updateCalibration (st : ServiceState) (currency : String) (params : UpdateParams) :
    UpdateResult × ServiceState :=
  let curr := asciiLower currency
  if calibTruthy curr = false then
    (UpdateResult.rejected ("Unknown currency: " ++ currency), st)
  else
    let newCalib :=
      if curr = "eur" then
        CalibMap.mk (applyParams st.calibration.eur false params) st.calibration.jpy
      else if curr = "jpy" then
        CalibMap.mk st.calibration.eur (applyParams st.calibration.jpy true params)
      else st.calibration
    let cache1 := st.cache.filter (fun k =>
      ! (decide (k = "cip_" ++ curr ++ "usd_5y_proxy") ||
         decide (k = "cip_hedging_cost") ||
         decide (k = "basis_japan_hedging_spread")))
    let result :=
      if curr = "eur" then UpdateResult.ok curr newCalib.eur
      else if curr = "jpy" then UpdateResult.ok curr newCalib.jpy
      else UpdateResult.okInherited curr
    (result, ServiceState.mk newCalib cache1)

/-!
## Specification-side definitions

These follow the wording of the specification (not the source) and are
compared with the embedded code in the refinement theorems below.
-/

/-- Band membership as the spec words it: with both bounds the band is
`[min, max)`; with only `min` membership is `value >= min`; with only
`max` membership is `value < max`; a band with neither bound matches
nothing. -/
def specInBand (v : ℚ) (b : Band) : Prop :=
  match b.min, b.max with
  | some mn, some mx => mn ≤ v ∧ v < mx
  | some mn, none => mn ≤ v
  | none, some mx => v < mx
  | none, none => False

instance (v : ℚ) (b : Band) : Decidable (specInBand v b) := by
  rcases b with ⟨mn, mx⟩
  rcases mn with _ | mn <;> rcases mx with _ | mx <;>
    · unfold specInBand
      infer_instance

/-- The zone result as the spec words it: the first zone in the priority
order `[critical, danger, warning, normal]` whose configured band
contains the value, defaulting to `NORMAL` when no band matches. -/
def specZoneResult (v : ℚ) (cfg : ThresholdConfig) : ZoneResult :=
  match zonePriority.find? (fun z =>
      match bandFor cfg z with
      | none => false
      | some b => decide (specInBand v b)) with
  | some z => ⟨zoneUpper z, getZoneColor z, getZoneDescription z⟩
  | none => ⟨"NORMAL", "#10b981", "Within normal range"⟩

/-- The forward-data branch of the CIP basis as the spec words it:
`forwardPremium_annualized - rateDifferential` with
`forwardPremium_annualized = (forwardPoints / spot) * (360 / tenorDays) * 100`
and `rateDifferential = usdRate - foreignRate`. -/
def specForwardBasis (usd frn spot fp : ℚ) (tenor : String) : ℚ :=
  fp / spot * (360 / getTenorDays tenor) * 100 - (usd - frn)

/-!
## Theorems
-/

lemma inZone_num (v : ℚ) (b : Band) : inZone (.num v) b = decide (specInBand v b) := by
  rcases b with ⟨mn, mx⟩
  rcases mn with _ | mn <;> rcases mx with _ | mx
  · simp [inZone, specInBand]
  · simp [inZone, specInBand, jsLtQ, toNumber]
  · simp [inZone, specInBand, jsGeQ, toNumber]
  · by_cases h1 : mn ≤ v <;> by_cases h2 : v < mx <;>
      simp_all [inZone, specInBand, jsGeQ, jsLtQ, toNumber]

lemma inZone_nan (b : Band) : inZone .nan b = false := by
  rcases b with ⟨mn, mx⟩
  rcases mn with _ | mn <;> rcases mx with _ | mx <;>
    simp [inZone, jsGeQ, jsLtQ, toNumber]

/-- C2: `evaluateThreshold` checks zones in the fixed priority order
critical, danger, warning, normal; a band with both bounds matches on
`min <= value < max`, with only `min` on `value >= min`, with only `max`
on `value < max`; the first matching zone wins; with no match the result
is `NORMAL`; a `null`/`undefined` value short-circuits to `UNKNOWN`
before any band is checked. -/
theorem evaluateThreshold_meets_spec :
    (∀ (v : ℚ) (cfg : ThresholdConfig),
      evaluateThreshold (.num v) cfg = specZoneResult v cfg) ∧
    (∀ cfg : ThresholdConfig,
      evaluateThreshold .jsNull cfg = ⟨"UNKNOWN", "#6b7280", "Data unavailable"⟩ ∧
      evaluateThreshold .undef cfg = ⟨"UNKNOWN", "#6b7280", "Data unavailable"⟩) := by
  constructor
  · intro v cfg
    unfold evaluateThreshold specZoneResult
    rw [if_neg (by simp)]
    have hp : (fun z => match bandFor cfg z with
        | none => false
        | some b => inZone (.num v) b)
        = (fun z => match bandFor cfg z with
        | none => false
        | some b => decide (specInBand v b)) := by
      funext z
      cases bandFor cfg z with
      | none => rfl
      | some b => simpa using inZone_num v b
    rw [hp]
  · intro cfg
    constructor <;> rfl

/-- C10: a `NaN` value is not caught by the `null`/`undefined`
short-circuit, fails every band comparison, and is therefore classified
as `NORMAL` by `evaluateThreshold` for every threshold configuration. -/
theorem evaluateThreshold_nan_is_normal (cfg : ThresholdConfig) :
    evaluateThreshold .nan cfg = ⟨"NORMAL", "#10b981", "Within normal range"⟩ := by
  unfold evaluateThreshold
  rw [if_neg (by simp)]
  have hfind : zonePriority.find? (fun z =>
      match bandFor cfg z with
      | none => false
      | some b => inZone .nan b) = none := by
    rw [List.find?_eq_none]
    intro z _
    cases bandFor cfg z with
    | none => simp
    | some b => simpa using inZone_nan b
  rw [hfind]

lemma mem_ite_singleton {α : Type} (c : Prop) [Decidable c] (x s : α)
    (hs : s ∈ if c then [x] else []) : c ∧ s = x := by
  by_cases hc : c
  · rw [if_pos hc] at hs
    exact ⟨hc, by simpa using hs⟩
  · rw [if_neg hc] at hs
    simp at hs

lemma foldl_pick_highest (t : TriggeredStage) (rest : List TriggeredStage) :
    (rest.foldl (fun mx s => if mx.stage < s.stage then s else mx) t = t ∨
      rest.foldl (fun mx s => if mx.stage < s.stage then s else mx) t ∈ rest) ∧
    t.stage ≤ (rest.foldl (fun mx s => if mx.stage < s.stage then s else mx) t).stage ∧
    ∀ s ∈ rest, s.stage ≤ (rest.foldl (fun mx s => if mx.stage < s.stage then s else mx) t).stage := by
  induction rest generalizing t with
  | nil => simp
  | cons s rest ih =>
    simp only [List.foldl_cons]
    obtain ⟨hmem, hle, hall⟩ := ih (if t.stage < s.stage then s else t)
    have hts : t.stage ≤ (if t.stage < s.stage then s else t).stage := by
      split <;> omega
    have hss : s.stage ≤ (if t.stage < s.stage then s else t).stage := by
      split
      · exact le_rfl
      · omega
    refine ⟨?_, le_trans hts hle, ?_⟩
    · rcases hmem with hmem | hmem
      · rw [hmem]
        split
        · exact Or.inr (List.mem_cons_self _ _)
        · exact Or.inl rfl
      · exact Or.inr (List.mem_cons_of_mem _ hmem)
    · intro x hx
      rcases List.mem_cons.mp hx with hx | hx
      · rw [hx]
        exact le_trans hss hle
      · exact hall x hx

/-- C3: when more than one stage fires, `assessCurrentStage` returns the
highest-numbered fired stage with that stage's own trigger list and
confidence, and `allTriggeredStages` carries one entry per fired stage,
each with its own stage number, trigger list and confidence formula. -/
theorem assessCurrentStage_highest_wins (i : Indicators)
    (h : 2 ≤ (triggeredStages i).length) :
    ∃ t ∈ triggeredStages i,
      (∀ s ∈ triggeredStages i, s.stage ≤ t.stage) ∧
      assessCurrentStage i =
        ⟨t.stage, getStageDescription t.stage, t.confidence, t.triggers, triggeredStages i⟩ ∧
      ∀ s ∈ triggeredStages i,
        (s.stage = 1 ∧ s.triggers = stage1Triggers i ∧
          s.confidence = min 100 (50 + (stage1Triggers i).length * 10)) ∨
        (s.stage = 2 ∧ s.triggers = stage2Triggers i ∧
          s.confidence = min 100 (50 + (stage2Triggers i).length * 15)) ∨
        (s.stage = 3 ∧ s.triggers = stage3Triggers i ∧
          s.confidence = min 100 (50 + (stage3Triggers i).length * 15)) ∨
        (s.stage = 4 ∧ s.triggers = stage4Triggers i ∧
          s.confidence = min 100 (40 + (stage4Triggers i).length * 30)) := by
  rcases heq : triggeredStages i with _ | ⟨t0, rest⟩
  · rw [heq] at h
    simp at h
  · obtain ⟨hmem, hle, hall⟩ := foldl_pick_highest t0 rest
    refine ⟨rest.foldl (fun mx s => if mx.stage < s.stage then s else mx) t0, ?_, ?_, ?_, ?_⟩
    · rcases hmem with hmem | hmem
      · rw [hmem]
        exact List.mem_cons_self _ _
      · exact List.mem_cons_of_mem _ hmem
    · intro s hs
      rcases List.mem_cons.mp hs with hs | hs
      · rw [hs]
        exact hle
      · exact hall s hs
    · unfold assessCurrentStage
      rw [heq]
    · intro s hs
      rw [← heq] at hs
      simp only [triggeredStages, List.mem_append] at hs
      rcases hs with ((hs | hs) | hs) | hs
      · obtain ⟨_, rfl⟩ := mem_ite_singleton _ _ _ hs
        exact Or.inl ⟨rfl, rfl, rfl⟩
      · obtain ⟨_, rfl⟩ := mem_ite_singleton _ _ _ hs
        exact Or.inr (Or.inl ⟨rfl, rfl, rfl⟩)
      · obtain ⟨_, rfl⟩ := mem_ite_singleton _ _ _ hs
        exact Or.inr (Or.inr (Or.inl ⟨rfl, rfl, rfl⟩))
      · obtain ⟨_, rfl⟩ := mem_ite_singleton _ _ _ hs
        exact Or.inr (Or.inr (Or.inr ⟨rfl, rfl, rfl⟩))

/-- A concrete snapshot in which stages 1 and 3 fire (and stage 2 does
not: only the dollar trigger of stage 2 is active). -/
def c3Snapshot : Indicators :=
  ⟨.num 0, .num (-20), .num 5, .num 0, .num 0, .num 50, .num 800,
    .num (-25), .num 0, .num 0, .num 0, .num (-20), .num 0⟩

theorem assessCurrentStage_highest_wins_witness :
    2 ≤ (triggeredStages c3Snapshot).length ∧
    ∃ t ∈ triggeredStages c3Snapshot,
      (∀ s ∈ triggeredStages c3Snapshot, s.stage ≤ t.stage) ∧
      assessCurrentStage c3Snapshot =
        ⟨t.stage, getStageDescription t.stage, t.confidence, t.triggers,
          triggeredStages c3Snapshot⟩ ∧
      ∀ s ∈ triggeredStages c3Snapshot,
        (s.stage = 1 ∧ s.triggers = stage1Triggers c3Snapshot ∧
          s.confidence = min 100 (50 + (stage1Triggers c3Snapshot).length * 10)) ∨
        (s.stage = 2 ∧ s.triggers = stage2Triggers c3Snapshot ∧
          s.confidence = min 100 (50 + (stage2Triggers c3Snapshot).length * 15)) ∨
        (s.stage = 3 ∧ s.triggers = stage3Triggers c3Snapshot ∧
          s.confidence = min 100 (50 + (stage3Triggers c3Snapshot).length * 15)) ∨
        (s.stage = 4 ∧ s.triggers = stage4Triggers c3Snapshot ∧
          s.confidence = min 100 (40 + (stage4Triggers c3Snapshot).length * 30)) :=
  ⟨by decide, assessCurrentStage_highest_wins c3Snapshot (by decide)⟩

/-- A snapshot in which every indicator field is `null`. -/
def allNullSnapshot : Indicators :=
  ⟨.jsNull, .jsNull, .jsNull, .jsNull, .jsNull, .jsNull, .jsNull,
    .jsNull, .jsNull, .jsNull, .jsNull, .jsNull, .jsNull⟩

lemma jsGtQ_null_pos {c : ℚ} (hc : 0 < c) : jsGtQ .jsNull c = false := by
  simp only [jsGtQ, toNumber, decide_eq_false_iff_not, not_lt]
  exact le_of_lt hc

/-- C4 counterexample: on the all-`null` snapshot the pre-crisis concern
for the basis swap fires (`null > -15` is true in JS because `null`
coerces to `0`), so `assessCurrentStage` reports one concern and
"Moderate Risk" instead of treating the null field as not triggered. -/
theorem null_basisSwap_triggers_concern :
    "Cross-currency basis narrowing" ∈ (assessCurrentStage allNullSnapshot).triggers ∧
    assessCurrentStage allNullSnapshot =
      ⟨0, "Pre-Crisis (Moderate Risk)", 58, ["Cross-currency basis narrowing"], []⟩ := by
  have h18 : jsGtQ .jsNull (18/100) = false := jsGtQ_null_pos (by norm_num)
  have h10 : jsGtQ .jsNull (10/100) = false := jsGtQ_null_pos (by norm_num)
  have hassess : assessCurrentStage allNullSnapshot =
      ⟨0, "Pre-Crisis (Moderate Risk)", 58, ["Cross-currency basis narrowing"], []⟩ := by
    simp [assessCurrentStage, triggeredStages, stage1Triggers, stage2Triggers,
      stage3Triggers, stage4Triggers, preCrisisConcerns, allNullSnapshot,
      h18, h10, jsGtQ, jsLtQ, toNumber]
    norm_num
    decide
  exact ⟨by rw [hassess]; simp, hassess⟩

/-- C4 amended: a `null` field makes every stage trigger condition and
every pre-crisis concern condition false, except the basis swap concern:
a `null` `basisSwap` satisfies `basisSwap > -15` (JS coerces `null` to
`0`) and so counts as the "Cross-currency basis narrowing" concern;
`assessCurrentStage` (a total function here) never throws. -/
theorem assessCurrentStage_null_handling (i : Indicators) :
    (i.basisSwap = .jsNull →
      jsGtQ i.basisSwap (-15) = true ∧
      "Cross-currency basis narrowing" ∈ preCrisisConcerns i) ∧
    (i.vix = .jsNull →
      jsGtQ i.vix 40 = false ∧ (jsLtQ i.dollarChange 0 && jsGtQ i.vix 25) = false) ∧
    (i.hySpread = .jsNull → jsGtQ i.hySpread 700 = false) ∧
    (i.auctionTail = .jsNull → jsGtQ i.auctionTail 4 = false ∧ jsGtQ i.auctionTail 2 = false) ∧
    (i.hedgingSpread = .jsNull →
      jsLtQ i.hedgingSpread (-50) = false ∧ jsLtQ i.hedgingSpread 0 = false) ∧
    (i.dollarChange = .jsNull →
      (jsLtQ i.dollarChange 0 && jsGtQ i.vix 25) = false ∧
      jsLtQ i.dollarChange (-15) = false ∧ jsLtQ i.dollarChange (-20) = false) ∧
    (i.fedBalanceSheetChange = .jsNull → jsGtQ i.fedBalanceSheetChange 2000 = false) ∧
    (i.inflationBreakeven = .jsNull → jsGtQ i.inflationBreakeven 4 = false) ∧
    (i.goldChange = .jsNull →
      jsGtQ i.goldChange 30 = false ∧ jsGtQ i.goldChange 50 = false) ∧
    (i.foreignHoldingsChange = .jsNull → jsLtQ i.foreignHoldingsChange (-10) = false) ∧
    (i.cpiAnnualized = .jsNull → jsGtQ i.cpiAnnualized 10 = false) ∧
    ( Indicators.interestRatio i = .jsNull →
      jsGtQ ( Indicators.interestRatio i) (18/100) = false) ∧
    (i.goldTreasuryRoC = .jsNull → jsGtQ i.goldTreasuryRoC (10/100) = false) := by
  refine ⟨?_, ?_, ?_, ?_, ?_, ?_, ?_, ?_, ?_, ?_, ?_, ?_, ?_⟩ <;> intro h
  · have hcond : jsGtQ i.basisSwap (-15) = true := by rw [h]; rfl
    refine ⟨hcond, ?_⟩
    have hd : "Cross-currency basis narrowing" ∈
        (if jsGtQ i.basisSwap (-15) then ["Cross-currency basis narrowing"] else []) := by
      rw [hcond]
      simp
    exact List.mem_append_left _ (List.mem_append_right _ hd)
  · refine ⟨by rw [h]; rfl, ?_⟩
    have h25 : jsGtQ i.vix 25 = false := by rw [h]; rfl
    rw [h25, Bool.and_false]
  · rw [h]; rfl
  · rw [h]; exact ⟨rfl, rfl⟩
  · rw [h]; exact ⟨rfl, rfl⟩
  · rw [h]; exact ⟨rfl, rfl, rfl⟩
  · rw [h]; rfl
  · rw [h]; rfl
  · rw [h]; exact ⟨rfl, rfl⟩
  · rw [h]; rfl
  · rw [h]; rfl
  · rw [h]; exact jsGtQ_null_pos (by norm_num)
  · rw [h]; exact jsGtQ_null_pos (by norm_num)

theorem assessCurrentStage_null_handling_witness :
    (jsGtQ (Indicators.basisSwap allNullSnapshot) (-15) = true ∧
      "Cross-currency basis narrowing" ∈ preCrisisConcerns allNullSnapshot) ∧
    jsGtQ (Indicators.vix allNullSnapshot) 40 = false ∧
    (jsLtQ (Indicators.dollarChange allNullSnapshot) 0 &&
      jsGtQ (Indicators.vix allNullSnapshot) 25) = false :=
  ⟨(assessCurrentStage_null_handling allNullSnapshot).1 rfl,
    (assessCurrentStage_null_handling allNullSnapshot).2.1 rfl⟩

/-- C1 counterexample: `calculateJapaneseHedgingSpread(null, 4, 3)` does
not yield `null`: JS coerces the `null` yield to `0` and returns the
number `-700` (bps); and `calculateAuctionTail(undefined, 1)` returns
`NaN`.  Both contradict "yields null, never returns NaN". -/
theorem hedging_spread_null_counterexample :
    calculateJapaneseHedgingSpread .jsNull (.num 4) (.num 3) = .num (-700) ∧
    JSVal.num (-700) ≠ .jsNull ∧
    calculateAuctionTail .undef (.num 1) = .nan := by
  refine ⟨?_, by simp, rfl⟩
  norm_num [calculateJapaneseHedgingSpread, jsMul, jsSub, jsBin, toNumber]

/-- C1 amended: only the guarded denominator argument propagates as
`null` (in the three ratio formulas); every other `null` argument is
coerced to `0` and produces an ordinary number, and every `undefined`
argument produces `NaN`; no formula throws (all are total here). -/
theorem formula_null_coercion (x y : ℚ) (hx : x ≠ 0) :
    calculateJapaneseHedgingSpread .jsNull (.num x) (.num y) = .num ((0 - x - y) * 100) ∧
    calculateJapaneseHedgingSpread (.num x) .jsNull (.num y) = .num ((x - 0 - y) * 100) ∧
    calculateJapaneseHedgingSpread (.num x) (.num y) .jsNull = .num ((x - y - 0) * 100) ∧
    calculateJapaneseHedgingSpread .undef (.num x) (.num y) = .nan ∧
    calculateJapaneseHedgingSpread (.num x) .undef (.num y) = .nan ∧
    calculateJapaneseHedgingSpread (.num x) (.num y) .undef = .nan ∧
    calculateAuctionTail .jsNull (.num x) = .num ((0 - x) * 100) ∧
    calculateAuctionTail (.num x) .jsNull = .num ((x - 0) * 100) ∧
    calculateAuctionTail .undef (.num x) = .nan ∧
    calculateAuctionTail (.num x) .undef = .nan ∧
    calculateGoldTreasuryRatio .jsNull (.num x) = .num (0 / x) ∧
    calculateGoldTreasuryRatio .undef (.num x) = .nan ∧
    calculateGoldTreasuryRatio (.num y) .jsNull = .jsNull ∧
    calculateGoldTreasuryRatio (.num y) .undef = .jsNull ∧
    calculateRatioRateOfChange .jsNull (.num x) = .num ((0 - x) / x) ∧
    calculateRatioRateOfChange .undef (.num x) = .nan ∧
    calculateRatioRateOfChange (.num y) .jsNull = .jsNull ∧
    calculateRatioRateOfChange (.num y) .undef = .jsNull ∧
    calculateInterestExpenseRatio .jsNull (.num x) = .num (0 / x) ∧
    calculateInterestExpenseRatio .undef (.num x) = .nan ∧
    calculateInterestExpenseRatio (.num y) .jsNull = .jsNull ∧
    calculateInterestExpenseRatio (.num y) .undef = .jsNull := by
  have hfal : falsy (.num x) = false := by simp [falsy, hx]
  refine ⟨rfl, rfl, rfl, rfl, rfl, rfl, rfl, rfl, rfl, rfl, ?_, ?_, rfl, rfl,
    ?_, ?_, rfl, rfl, ?_, ?_, rfl, rfl⟩ <;>
    simp [calculateGoldTreasuryRatio, calculateRatioRateOfChange,
      calculateInterestExpenseRatio, hfal, jsDiv, jsSub, jsBin, toNumber]

theorem formula_null_coercion_witness :
    (4:ℚ) ≠ 0 ∧
    calculateJapaneseHedgingSpread .jsNull (.num 4) (.num 3) = .num ((0 - 4 - 3) * 100) ∧
    calculateGoldTreasuryRatio .jsNull (.num 4) = .num (0 / 4) :=
  ⟨by norm_num, (formula_null_coercion 4 3 (by norm_num)).1,
    (formula_null_coercion 4 3 (by norm_num)).2.2.2.2.2.2.2.2.2.2.1⟩

/-- A yield is present (is an actual number). -/
def isNumVal : JSVal → Bool
  | .num _ => true
  | _ => false

/-- The numeric value of a present yield. -/
def numOf : JSVal → ℚ
  | .num q => q
  | _ => 0

/-- The average auction tail as the claim words it: `null` for a missing
or empty auction set, otherwise the arithmetic mean of the tails of the
auctions that have both required yields (auctions missing a yield are
excluded, not zero-filled); `null` when no auction is complete. -/
def specAverageAuctionTail (auctions : Option (List Auction)) : JSVal :=
  match auctions with
  | none => .jsNull
  | some l =>
    if l.length = 0 then .jsNull
    else
      let valid := l.filter (fun a => isNumVal a.highYield && isNumVal a.whenIssuedYield)
      if valid.length = 0 then .jsNull
      else
        .num ((valid.map (fun a => (numOf a.highYield - numOf a.whenIssuedYield) * 100)).sum
          / valid.length)

/-- Two auctions, the second missing its high yield. -/
def c5Auctions : List Auction :=
  [⟨.num 5, .num (49/10)⟩, ⟨.jsNull, .num (49/10)⟩]

/-- C5 counterexample: with tails 10 bps and (null-coerced) -490 bps the
code averages over both auctions and returns -240, while the claimed
exclusion semantics yields 10. -/
theorem average_tail_counterexample :
    calculateAverageAuctionTail (some c5Auctions) = .num (-240) ∧
    specAverageAuctionTail (some c5Auctions) = .num 10 ∧
    calculateAverageAuctionTail (some c5Auctions) ≠ specAverageAuctionTail (some c5Auctions) := by
  have h1 : calculateAverageAuctionTail (some c5Auctions) = .num (-240) := by
    norm_num [calculateAverageAuctionTail, c5Auctions, calculateAuctionTail,
      jsMul, jsSub, jsAdd, jsDiv, jsBin, toNumber]
  have h2 : specAverageAuctionTail (some c5Auctions) = .num 10 := by
    norm_num [specAverageAuctionTail, c5Auctions, isNumVal, numOf, List.filter]
  refine ⟨h1, h2, ?_⟩
  rw [h1, h2]
  simp
  norm_num

lemma foldl_jsAdd_num (qs : List ℚ) (acc : ℚ) :
    (qs.map JSVal.num).foldl jsAdd (.num acc) = .num (acc + qs.sum) := by
  induction qs generalizing acc with
  | nil => simp
  | cons q rest ih =>
    simp only [List.map_cons, List.foldl_cons]
    have hstep : jsAdd (.num acc) (.num q) = .num (acc + q) := rfl
    rw [hstep, ih]
    congr 1
    simp
    ring

lemma jsAdd_nan_right (a : JSVal) : jsAdd a .nan = .nan := by
  cases a <;> rfl

lemma jsAdd_nan_left (b : JSVal) : jsAdd .nan b = .nan := by
  cases b <;> rfl

lemma foldl_jsAdd_of_nan (l : List JSVal) (acc : JSVal)
    (h : JSVal.nan ∈ l ∨ acc = .nan) : l.foldl jsAdd acc = .nan := by
  induction l generalizing acc with
  | nil =>
    rcases h with h | h
    · simp at h
    · simpa using h
  | cons x rest ih =>
    simp only [List.foldl_cons]
    rcases h with h | h
    · rcases List.mem_cons.mp h with hx | hx
      · exact ih _ (Or.inr (by rw [← hx]; exact jsAdd_nan_right acc))
      · exact ih _ (Or.inl hx)
    · rw [h]
      exact ih _ (Or.inr (jsAdd_nan_left x))

lemma avg_congr (l1 l2 : List Auction) (hlen : l1.length = l2.length)
    (hmap : l1.map (fun a => calculateAuctionTail a.highYield a.whenIssuedYield) =
      l2.map (fun a => calculateAuctionTail a.highYield a.whenIssuedYield)) :
    calculateAverageAuctionTail (some l1) = calculateAverageAuctionTail (some l2) := by
  show (if l1.length = 0 then JSVal.jsNull
      else jsDiv ((l1.map (fun a => calculateAuctionTail a.highYield a.whenIssuedYield)).foldl
        jsAdd (.num 0)) (.num l1.length)) =
    (if l2.length = 0 then JSVal.jsNull
      else jsDiv ((l2.map (fun a => calculateAuctionTail a.highYield a.whenIssuedYield)).foldl
        jsAdd (.num 0)) (.num l2.length))
  rw [hlen, hmap]

lemma avg_of_nan_tail (l : List Auction) (hne : ¬ l.length = 0)
    (hnan : JSVal.nan ∈ l.map (fun a => calculateAuctionTail a.highYield a.whenIssuedYield)) :
    calculateAverageAuctionTail (some l) = .nan := by
  show (if l.length = 0 then JSVal.jsNull
      else jsDiv ((l.map (fun a => calculateAuctionTail a.highYield a.whenIssuedYield)).foldl
        jsAdd (.num 0)) (.num l.length)) = .nan
  rw [if_neg hne, foldl_jsAdd_of_nan _ _ (Or.inl hnan)]
  rfl

lemma tail_undef_right (w : JSVal) : calculateAuctionTail w .undef = .nan := by
  cases w <;> rfl

lemma tail_undef_left (w : JSVal) : calculateAuctionTail .undef w = .nan := rfl

/-- C5 amended: `calculateAverageAuctionTail` returns `null` for a
missing or empty auction set; otherwise it averages over all auctions
with no exclusion: a `null` yield in either position of any auction is
coerced to `0` (zero-filled), an `undefined` yield in either position of
any auction makes the result `NaN`, and for complete auctions the result
is the plain arithmetic mean of `(high - whenIssued) * 100`. -/
theorem calculateAverageAuctionTail_zero_fills :
    calculateAverageAuctionTail none = .jsNull ∧
    calculateAverageAuctionTail (some []) = .jsNull ∧
    (∀ (pre post : List Auction) (w : JSVal),
      calculateAverageAuctionTail (some (pre ++ ⟨.jsNull, w⟩ :: post)) =
        calculateAverageAuctionTail (some (pre ++ ⟨.num 0, w⟩ :: post)) ∧
      calculateAverageAuctionTail (some (pre ++ ⟨w, .jsNull⟩ :: post)) =
        calculateAverageAuctionTail (some (pre ++ ⟨w, .num 0⟩ :: post))) ∧
    (∀ (pre post : List Auction) (w : JSVal),
      calculateAverageAuctionTail (some (pre ++ ⟨.undef, w⟩ :: post)) = .nan ∧
      calculateAverageAuctionTail (some (pre ++ ⟨w, .undef⟩ :: post)) = .nan) ∧
    (∀ (l : List (ℚ × ℚ)), l ≠ [] →
      calculateAverageAuctionTail (some (l.map (fun p => ⟨.num p.1, .num p.2⟩))) =
        .num ((l.map (fun p => (p.1 - p.2) * 100)).sum / l.length)) := by
  refine ⟨rfl, rfl, ?_, ?_, ?_⟩
  · intro pre post w
    constructor
    · refine avg_congr _ _ (by simp) ?_
      simp only [List.map_append, List.map_cons]
      rfl
    · refine avg_congr _ _ (by simp) ?_
      simp only [List.map_append, List.map_cons]
      have hw : calculateAuctionTail w .jsNull = calculateAuctionTail w (.num 0) := by
        cases w <;> rfl
      rw [hw]
  · intro pre post w
    constructor
    · refine avg_of_nan_tail _ (by simp) ?_
      rw [List.map_append, List.map_cons, tail_undef_left w]
      exact List.mem_append_right _ (List.mem_cons_self _ _)
    · refine avg_of_nan_tail _ (by simp) ?_
      rw [List.map_append, List.map_cons, tail_undef_right w]
      exact List.mem_append_right _ (List.mem_cons_self _ _)
  · intro l hl
    have hlen : (l.map (fun p => (⟨.num p.1, .num p.2⟩ : Auction))).length = l.length := by
      simp
    have hne : ¬ (l.map (fun p => (⟨.num p.1, .num p.2⟩ : Auction))).length = 0 := by
      simp [hlen, hl]
    have hmap : (l.map (fun p => (⟨.num p.1, .num p.2⟩ : Auction))).map
        (fun a => calculateAuctionTail a.highYield a.whenIssuedYield) =
        (l.map (fun p => (p.1 - p.2) * 100)).map JSVal.num := by
      simp only [List.map_map]
      rfl
    show (if (l.map (fun p => (⟨.num p.1, .num p.2⟩ : Auction))).length = 0 then JSVal.jsNull
      else jsDiv (((l.map (fun p => (⟨.num p.1, .num p.2⟩ : Auction))).map
          (fun a => calculateAuctionTail a.highYield a.whenIssuedYield)).foldl jsAdd (.num 0))
        (.num ((l.map (fun p => (⟨.num p.1, .num p.2⟩ : Auction))).length))) = _
    rw [if_neg hne, hmap, foldl_jsAdd_num, hlen]
    simp [jsDiv, jsBin, toNumber]

theorem calculateAverageAuctionTail_zero_fills_witness :
    ([((5:ℚ), (49:ℚ)/10)] ≠ []) ∧
    calculateAverageAuctionTail
        (some ([((5:ℚ), (49:ℚ)/10)].map (fun p => ⟨.num p.1, .num p.2⟩))) =
      .num (([((5:ℚ), (49:ℚ)/10)].map (fun p => (p.1 - p.2) * 100)).sum /
        ([((5:ℚ), (49:ℚ)/10)] : List (ℚ × ℚ)).length) :=
  ⟨by simp, calculateAverageAuctionTail_zero_fills.2.2.2.2 [((5:ℚ), (49:ℚ)/10)] (by simp)⟩

/-- The state used in the C6 calibration-invalidation scenario: default
calibration with the EUR proxy cache key live. -/
def c6State : ServiceState :=
  ServiceState.mk initialCalibration ["cip_eurusd_5y_proxy", "cip_hedging_cost"]

/-- The state after `updateCalibration('eur', {baseOffset: -30})`. -/
def c6StateAfter : ServiceState :=
  (updateCalibration c6State "eur" ⟨some (-30), none, none⟩).2

/-- C6: with no forward data, `calculateCIPBasis` returns
`baseOffset - (usdRate - foreignRate) * rateSensitivity`, plus the
structural premium for JPY; and the spec's scenario holds: with the
default EUR calibration the basis at `fedFunds = 5.25`, `ecb = 3.00` is
`-33`, and after `updateCalibration('eur', {baseOffset: -30})` the same
computation against the updated state yields `-48`, with the EUR proxy
cache key cleared by the update. -/
theorem calculateCIPBasis_fallback_formula :
    (∀ (calib : CalibMap) (usd frn : ℚ) (spot : Option ℚ) (tenor : String),
      calculateCIPBasis calib usd frn spot none tenor "eur" =
        calib.eur.baseOffset - (usd - frn) * calib.eur.rateSensitivity) ∧
    (∀ (calib : CalibMap) (usd frn fp : ℚ) (tenor : String),
      calculateCIPBasis calib usd frn none (some fp) tenor "eur" =
        calib.eur.baseOffset - (usd - frn) * calib.eur.rateSensitivity) ∧
    (∀ (calib : CalibMap) (usd frn : ℚ) (spot : Option ℚ) (tenor : String) (sp : ℚ),
      calib.jpy.structuralPremium = some sp → sp ≠ 0 →
      calculateCIPBasis calib usd frn spot none tenor "jpy" =
        calib.jpy.baseOffset - (usd - frn) * calib.jpy.rateSensitivity + sp) ∧
    calculateCIPBasis initialCalibration (21/4) 3 none none "5Y" "eur" = -33 ∧
    calculateCIPBasis c6StateAfter.calibration (21/4) 3 none none "5Y" "eur" = -48 ∧
    "cip_eurusd_5y_proxy" ∉ c6StateAfter.cache := by
  have heurcal : ∀ (calib : CalibMap) (usd frn : ℚ) (spot : Option ℚ) (tenor : String),
      calculateCIPBasis calib usd frn spot none tenor "eur" =
        calib.eur.baseOffset - (usd - frn) * calib.eur.rateSensitivity := by
    intro calib usd frn spot tenor
    cases spot <;> rfl
  have hafter : c6StateAfter.calibration = CalibMap.mk ⟨-30, 8, none⟩ ⟨-25, 12, some (-15)⟩ := by
    rfl
  refine ⟨heurcal, ?_, ?_, ?_, ?_, ?_⟩
  · intro calib usd frn fp tenor
    rfl
  · intro calib usd frn spot tenor sp hsp hsp0
    have hred : calculateCIPBasis calib usd frn spot none tenor "jpy" =
        (match calib.jpy.structuralPremium with
          | some sp =>
            if sp = 0 then calib.jpy.baseOffset - (usd - frn) * calib.jpy.rateSensitivity
            else calib.jpy.baseOffset - (usd - frn) * calib.jpy.rateSensitivity + sp
          | none => calib.jpy.baseOffset - (usd - frn) * calib.jpy.rateSensitivity) := by
      cases spot <;> rfl
    rw [hred, hsp]
    exact if_neg hsp0
  · rw [heurcal]
    norm_num [initialCalibration]
  · rw [heurcal, hafter]
    norm_num
  · decide

theorem calculateCIPBasis_fallback_formula_witness :
    (initialCalibration.jpy.structuralPremium = some (-15) ∧ (-15 : ℚ) ≠ 0) ∧
    calculateCIPBasis initialCalibration (21/4) (1/4) none none "5Y" "jpy" =
      initialCalibration.jpy.baseOffset -
        (21/4 - 1/4) * initialCalibration.jpy.rateSensitivity + (-15) :=
  ⟨⟨rfl, by norm_num⟩,
    calculateCIPBasis_fallback_formula.2.2.1 initialCalibration (21/4) (1/4) none "5Y"
      (-15) rfl (by norm_num)⟩

/-- C7 counterexample: with forward points available the code returns
`(forwardPremium - rateDifferential) * 100` (converted to basis points),
not the claim's `forwardPremium - rateDifferential`: at
`usd = 5.25`, `foreign = 3`, `spot = 1`, `forwardPoints = 1`,
tenor `1Y`, the two differ by a factor of 100. -/
theorem cip_forward_basis_counterexample :
    calculateCIPBasis initialCalibration (21/4) 3 (some 1) (some 1) "1Y" "eur" =
      (1 / 1 * (360 / 365) * 100 - (21 / 4 - 3)) * 100 ∧
    specForwardBasis (21/4) 3 1 1 "1Y" = 1 / 1 * (360 / 365) * 100 - (21 / 4 - 3) ∧
    calculateCIPBasis initialCalibration (21/4) 3 (some 1) (some 1) "1Y" "eur" ≠
      specForwardBasis (21/4) 3 1 1 "1Y" := by
  have ht : getTenorDays "1Y" = 365 := by
    have h1 : digitsToNat ['1'] = 1 := by decide
    simp +decide [getTenorDays, h1]
  have hcode : calculateCIPBasis initialCalibration (21/4) 3 (some 1) (some 1) "1Y" "eur" =
      (1 / 1 * (360 / getTenorDays "1Y") * 100 - (21 / 4 - 3)) * 100 := rfl
  have hspec : specForwardBasis (21/4) 3 1 1 "1Y" =
      1 / 1 * (360 / getTenorDays "1Y") * 100 - (21 / 4 - 3) := rfl
  rw [hcode, hspec, ht]
  refine ⟨rfl, rfl, ?_⟩
  norm_num

/-- C7 amended: with forward points and a spot rate supplied,
`calculateCIPBasis` returns
`(forwardPremium_annualized - rateDifferential) * 100` — the spec's
formula further multiplied by 100 to convert percentage points to basis
points.  The nonzero hypotheses keep the rational-arithmetic model
faithful to JS (where division by zero gives `Infinity`). -/
theorem calculateCIPBasis_forward_formula (calib : CalibMap) (usd frn spot fp : ℚ)
    (tenor currency : String) (hspot : spot ≠ 0) (htenor : getTenorDays tenor ≠ 0) :
    calculateCIPBasis calib usd frn (some spot) (some fp) tenor currency =
      specForwardBasis usd frn spot fp tenor * 100 := by
  unfold calculateCIPBasis specForwardBasis
  ring

theorem calculateCIPBasis_forward_formula_witness :
    ((1:ℚ) ≠ 0 ∧ getTenorDays "1Y" ≠ 0) ∧
    calculateCIPBasis initialCalibration (21/4) 3 (some 1) (some 1) "1Y" "eur" =
      specForwardBasis (21/4) 3 1 1 "1Y" * 100 := by
  have ht : getTenorDays "1Y" = 365 := by
    have h1 : digitsToNat ['1'] = 1 := by decide
    simp +decide [getTenorDays, h1]
  have htenor : getTenorDays "1Y" ≠ 0 := by
    rw [ht]
    norm_num
  exact ⟨⟨by norm_num, htenor⟩,
    calculateCIPBasis_forward_formula initialCalibration (21/4) 3 1 1 "1Y" "eur"
      (by norm_num) htenor⟩

/-- A state with default calibration and two live cache keys. -/
def c9State : ServiceState :=
  ServiceState.mk initialCalibration ["cip_hedging_cost", "basis_all_metrics"]

/-- C9 counterexample: "constructor" is not a configured calibration key,
yet `this.calibration['constructor']` resolves on the prototype chain to
a truthy value, so `updateCalibration` does not reject: it reports
success for the inherited member and deletes the `cip_hedging_cost`
cache key — the state is not left as it was. -/
theorem updateCalibration_prototype_counterexample :
    (asciiLower "constructor" ≠ "eur" ∧ asciiLower "constructor" ≠ "jpy") ∧
    updateCalibration c9State "constructor" ⟨some (-30), none, none⟩ =
      (UpdateResult.okInherited "constructor",
        ServiceState.mk initialCalibration ["basis_all_metrics"]) ∧
    (updateCalibration c9State "constructor" ⟨some (-30), none, none⟩).2 ≠ c9State :=
  ⟨⟨by decide, by decide⟩, by decide, by decide⟩

/-- C9 amended: for every currency string whose lowercasing is neither a
configured calibration key nor an `Object.prototype` property name,
`updateCalibration` rejects with a descriptive error and returns the
state (calibration and caches) exactly unchanged; a lowercased
`Object.prototype` property name instead passes the truthiness guard and
succeeds, deleting the dependent cache keys (the table's own entries are
unchanged since the assignments land on the inherited member). -/
theorem updateCalibration_rejects_unknown (st : ServiceState) (currency : String)
    (params : UpdateParams)
    (h1 : asciiLower currency ≠ "eur") (h2 : asciiLower currency ≠ "jpy")
    (h3 : asciiLower currency ∉ objectProtoProps) :
    updateCalibration st currency params =
      (UpdateResult.rejected ("Unknown currency: " ++ currency), st) := by
  have hfalse : calibTruthy (asciiLower currency) = false := by
    simp [calibTruthy, h1, h2, h3]
  unfold updateCalibration
  simp [hfalse]

theorem updateCalibration_rejects_unknown_witness :
    (asciiLower "gbp" ≠ "eur" ∧ asciiLower "gbp" ≠ "jpy" ∧
      asciiLower "gbp" ∉ objectProtoProps) ∧
    updateCalibration c9State "gbp" ⟨some (-30), none, none⟩ =
      (UpdateResult.rejected ("Unknown currency: " ++ "gbp"), c9State) :=
  ⟨⟨by decide, by decide, by decide⟩,
    updateCalibration_rejects_unknown c9State "gbp" ⟨some (-30), none, none⟩
      (by decide) (by decide) (by decide)⟩

/-- C8: the 6/12-month change calculators return `null` for a missing or
short series; the 12-month cutoff `setFullYear(year - 1)` agrees with
"minus 12 calendar months" on valid dates; and on the descending-sorted
series the newest point dominates every date, the result is `null` when
no point is dated on-or-before the cutoff, and otherwise it is
`current.value - located.value` for the first such point scanning from
the newest (a calendar lookback, not a fixed index offset). -/
theorem trend_change_calendar_lookback :
    (calculate6MonthChange none = .jsNull ∧ calculate12MonthChange none = .jsNull) ∧
    (∀ l : List TimePoint, l.length < 2 →
      calculate6MonthChange (some l) = .jsNull ∧ calculate12MonthChange (some l) = .jsNull) ∧
    (∀ d : CalDate, d.month < 12 → minusOneYear d = minusMonths 12 d) ∧
    (∀ (l : List TimePoint) (cur : TimePoint) (rest : List TimePoint),
      sortByDateDesc l = cur :: rest → 2 ≤ l.length →
      (∀ p ∈ l, dateLE p.date cur.date = true) ∧
      ((∀ p ∈ l, dateLE p.date (minusMonths 6 cur.date) = false) →
        calculate6MonthChange (some l) = .jsNull) ∧
      (∀ loc, (cur :: rest).find? (fun d => dateLE d.date (minusMonths 6 cur.date)) = some loc →
        calculate6MonthChange (some l) = jsSub cur.value loc.value) ∧
      ((∀ p ∈ l, dateLE p.date (minusOneYear cur.date) = false) →
        calculate12MonthChange (some l) = .jsNull) ∧
      (∀ loc, (cur :: rest).find? (fun d => dateLE d.date (minusOneYear cur.date)) = some loc →
        calculate12MonthChange (some l) = jsSub cur.value loc.value)) := by
  refine ⟨⟨rfl, rfl⟩, ?_, ?_, ?_⟩
  · intro l h
    constructor <;> simp [calculate6MonthChange, calculate12MonthChange, h]
  · intro d hm
    have hy : (d.year * 12 + (d.month : ℤ) - 12) / 12 = d.year - 1 := by omega
    have hmonth : ((d.year * 12 + (d.month : ℤ) - 12) % 12).toNat = d.month := by omega
    show normalizeDay (d.year - 1) d.month d.day =
      normalizeDay ((d.year * 12 + (d.month : ℤ) - 12) / 12)
        ((d.year * 12 + (d.month : ℤ) - 12) % 12).toNat d.day
    rw [hy, hmonth]
  · intro l cur rest hsort hlen
    have hperm : ∀ p : TimePoint, p ∈ l ↔ p ∈ cur :: rest := by
      intro p
      rw [← hsort]
      exact ((List.perm_insertionSort dateGE l).mem_iff).symm
    have hsorted : List.Sorted dateGE (cur :: rest) := by
      rw [← hsort]
      exact List.sorted_insertionSort dateGE l
    have h2 : ¬ l.length < 2 := by omega
    refine ⟨?_, ?_, ?_, ?_, ?_⟩
    · intro p hp
      rcases List.mem_cons.mp ((hperm p).mp hp) with hc | hr
      · rw [hc]
        simp [dateLE]
      · have := List.rel_of_sorted_cons hsorted p hr
        simpa [dateLE, dateGE] using this
    · intro hall
      have hfindnone : (cur :: rest).find?
          (fun d => dateLE d.date (minusMonths 6 cur.date)) = none := by
        rw [List.find?_eq_none]
        intro x hx
        simp [hall x ((hperm x).mpr hx)]
      simp [calculate6MonthChange, h2, hsort, hfindnone]
    · intro loc hfind
      simp [calculate6MonthChange, h2, hsort, hfind]
    · intro hall
      have hfindnone : (cur :: rest).find?
          (fun d => dateLE d.date (minusOneYear cur.date)) = none := by
        rw [List.find?_eq_none]
        intro x hx
        simp [hall x ((hperm x).mpr hx)]
      simp [calculate12MonthChange, h2, hsort, hfindnone]
    · intro loc hfind
      simp [calculate12MonthChange, h2, hsort, hfind]

/-- Newest point of the C8 witness series (Sep 15 2024). -/
def c8P1 : TimePoint := ⟨⟨2024, 8, 15⟩, .num 10⟩

/-- Middle point of the C8 witness series (Mar 10 2024). -/
def c8P2 : TimePoint := ⟨⟨2024, 2, 10⟩, .num 4⟩

/-- Oldest point of the C8 witness series (Aug 1 2023). -/
def c8P3 : TimePoint := ⟨⟨2023, 7, 1⟩, .num 1⟩

/-- The C8 witness series, deliberately unsorted and with irregular
gaps. -/
def c8Series : List TimePoint := [c8P2, c8P1, c8P3]

theorem trend_change_calendar_lookback_witness :
    (sortByDateDesc c8Series = c8P1 :: [c8P2, c8P3] ∧ 2 ≤ c8Series.length) ∧
    calculate6MonthChange (some c8Series) = jsSub c8P1.value c8P2.value ∧
    calculate12MonthChange (some c8Series) = jsSub c8P1.value c8P3.value :=
  ⟨⟨by decide, by decide⟩,
    (trend_change_calendar_lookback.2.2.2 c8Series c8P1 [c8P2, c8P3]
      (by decide) (by decide)).2.2.1 c8P2 (by decide),
    (trend_change_calendar_lookback.2.2.2 c8Series c8P1 [c8P2, c8P3]
      (by decide) (by decide)).2.2.2.2 c8P3 (by decide)⟩

end FT
